import Mathlib

/-!
# Lanne AI orchestration pipeline: shallow embedding and verification

This file embeds the orchestration pipeline of the Lanne AI repository
(`src/unnamed/part_005`, the orchestrator documentation with its Python
implementation snippets, and the browser-side services in
`src/website/scripts/chatIntegration.js` and `src/unnamed/part_002`) and
proves or refutes the specified properties about it.

Conventions of the embedding:
* Python `Optional[str]` fields become `Option String`; Python truthiness
  of such a field (`if self.agent_data:`) is `pyTruthy`: present and
  nonempty.
* `"\n\n".join(parts)` becomes `joinParts`.
* Async collaborator calls become explicit function parameters
  (environments); the calls a method issues are recorded in an explicit
  trace list so that "issues a call / issues no call" is provable.
* Fallible operations return `Option`.
-/

namespace Lanne

/-- The three intents produced by `classify_intent` (part_005, RF01). -/
inductive Intent
  | GREETING
  | CASUAL
  | TECHNICAL
deriving DecidableEq, Repr

/-- `ExecutionPlan` dataclass (part_005 lines 194-215), with the Python
field defaults. -/
structure ExecutionPlan where
  intent : String
  use_agent : Bool := false
  agent_commands : List String := []
  use_rag : Bool := false
  use_web : Bool := false
  response_style : String := "CHAT"
  reasoning : String := ""
deriving DecidableEq, Repr

/-- `ExecutionContext` dataclass (part_005 lines 218-225), with the Python
field defaults.  The similarity score is kept as a rational in place of the
Python float. -/
structure ExecutionContext where
  agent_data : Option String := none
  rag_data : Option String := none
  rag_similarity : ℚ := 0
  web_data : Option String := none
  sources : List String := []
deriving DecidableEq, Repr

/-- Python truthiness of an optional string field: the field is set and the
string is nonempty (`if self.agent_data:` in `build_context`/`has_data`). -/
def pyTruthy : Option String → Bool
  | none => false
  | some s => !(s == "")

/-- The string carried by an optional field (only consulted when truthy). -/
def strOf : Option String → String
  | none => ""
  | some s => s

/-- `"\n\n".join(parts)` from `build_context` (part_005 line 240). -/
def joinParts : List String → String
  | [] => ""
  | [p] => p
  | p :: q :: rest => p ++ "\n\n" ++ joinParts (q :: rest)

/-- `ExecutionContext.has_data` (part_005 lines 227-229):
`any([self.agent_data, self.rag_data, self.web_data])`. -/
def ExecutionContext.has_data (ctx : ExecutionContext) : Bool :=
  pyTruthy ctx.agent_data || pyTruthy ctx.rag_data || pyTruthy ctx.web_data

/-- `ExecutionContext.build_context` (part_005 lines 231-240): collect the
truthy parts in order agent, rag (prefixed `[BASE DE CONHECIMENTO]`),
web (prefixed `[PESQUISA WEB]`), then join with blank lines. -/
def ExecutionContext.build_context (ctx : ExecutionContext) : String :=
  let parts : List String :=
    (if pyTruthy ctx.agent_data then [strOf ctx.agent_data] else []) ++
    (if pyTruthy ctx.rag_data then
      ["[BASE DE CONHECIMENTO]\n" ++ strOf ctx.rag_data] else []) ++
    (if pyTruthy ctx.web_data then
      ["[PESQUISA WEB]\n" ++ strOf ctx.web_data] else [])
  if parts = [] then "" else joinParts parts

/-- The shape of a planner reply after field extraction, before the
tolerant coercion applied by `parse_plan`: every field may be missing. -/
structure PlannerReply where
  use_agent : Option Bool := none
  agent_commands : Option (List String) := none
  use_rag : Option Bool := none
  use_web : Option Bool := none
  response_style : Option String := none
  reasoning : Option String := none
deriving DecidableEq, Repr

/-- Modelled from the spec: `parse_plan`, whose body is not in the
repository snapshot (only its call site in `create_plan` is).  Per the
spec, parsing is defensive: missing boolean flags default to false,
missing responseStyle defaults to CHAT, agent commands are empty unless
provided. -/
def parse_plan (r : PlannerReply) : ExecutionPlan :=
  { intent := "TECHNICAL"
    use_agent := r.use_agent.getD false
    agent_commands := r.agent_commands.getD []
    use_rag := r.use_rag.getD false
    use_web := r.use_web.getD false
    response_style := r.response_style.getD "CHAT"
    reasoning := r.reasoning.getD "" }

/-- Modelled from the spec: the conservative default plan returned when
the generation collaborator used for planning is unreachable or times out
(the body of `call_llm_classify` and its error handling are not in the
repository snapshot): `useRetrieval = true`, all other flags false,
responseStyle = CHAT. -/
def default_technical_plan : ExecutionPlan :=
  { intent := "TECHNICAL", use_rag := true }

/-- `ReactOrchestrator.create_plan` (part_005 lines 147-158).  The
external collaborators are passed as parameters: `classify` stands for
`classify_intent`, and `planner` is the planner round-trip outcome
(`none` when the generation collaborator is unreachable or times out, in
which case the spec-modelled conservative default applies).  The Python
body has an `if intent == "GREETING"` branch and an `if intent ==
"TECHNICAL"` branch and nothing else, so a CASUAL query falls through
both and the function implicitly returns `None`. -/
def create_plan (classify : String → Intent) (planner : Option PlannerReply)
    (query : String) : Option ExecutionPlan :=
  match classify query with
  | Intent.GREETING =>
      some { intent := "GREETING", response_style := "CHAT" }
  | Intent.TECHNICAL =>
      some (match planner with
        | none => default_technical_plan
        | some r => parse_plan r)
  | Intent.CASUAL => none

/-- The collaborator calls `execute_plan` can issue.  A `webC`
constructor is included so that the absence of web-search calls is
expressible. -/
inductive SourceCall
  | agentC (commands : List String)
  | ragC (query : String)
  | webC (query : String)
deriving DecidableEq, Repr

/-- Whether a call is to the remote-command agent. -/
def SourceCall.isAgent : SourceCall → Bool
  | SourceCall.agentC _ => true
  | _ => false

/-- Whether a call is to the retrieval index. -/
def SourceCall.isRag : SourceCall → Bool
  | SourceCall.ragC _ => true
  | _ => false

/-- Whether a call is to web search. -/
def SourceCall.isWeb : SourceCall → Bool
  | SourceCall.webC _ => true
  | _ => false

/-- `ReactOrchestrator.execute_plan` (part_005 lines 160-170), with the
external collaborators passed as parameters and the issued calls recorded
in a trace: if `use_agent`, call `execute_agent_commands` on the plan's
commands and store the output; if `use_rag`, call `search_rag` on the
query and store its (optional) result.  The Python body contains no
branch for `use_web`. -/
def execute_plan (agentFn : List String → Option String)
    (ragFn : String → Option String)
    (plan : ExecutionPlan) (query : String) :
    ExecutionContext × List SourceCall :=
  let ctx0 : ExecutionContext := {}
  let step1 :=
    if plan.use_agent then
      ({ ctx0 with agent_data := agentFn plan.agent_commands },
       [SourceCall.agentC plan.agent_commands])
    else (ctx0, [])
  if plan.use_rag then
    ({ step1.1 with rag_data := ragFn query },
     step1.2 ++ [SourceCall.ragC query])
  else step1

/-- Modelled from the spec: the orchestrator helper `search_rag`, whose
body is not in the repository snapshot (only its call site in
`execute_plan` is).  Per the spec, retrieval returns an ordered sequence
of (text, score) pairs with scores descending, and retrieval results
below a similarity threshold are treated as absent even on success, so
the helper yields the top result's text only when its score reaches the
threshold. -/
def search_rag (results : List (String × ℚ)) (threshold : ℚ) :
    Option String :=
  match results with
  | [] => none
  | (text, score) :: _ => if threshold ≤ score then some text else none

/-- A string with a nonempty left part is nonempty. -/
theorem append_ne_empty_left (a b : String) (h : a ≠ "") : a ++ b ≠ "" := by
  intro hc
  have h2 : a.length + b.length = 0 := by
    have := congrArg String.length hc
    simpa [String.length_append] using this
  have h3 : a.length = 0 := by omega
  exact h (String.ext (List.length_eq_zero.mp h3))

/-- Joining a nonempty list of nonempty parts yields a nonempty string. -/
theorem joinParts_ne_empty :
    ∀ parts : List String, parts ≠ [] → (∀ p ∈ parts, p ≠ "") →
      joinParts parts ≠ ""
  | [], hne, _ => absurd rfl hne
  | [p], _, hall => by
      simpa [joinParts] using hall p (by simp)
  | p :: q :: rest, _, hall => by
      have hp : p ≠ "" := hall p (by simp)
      simpa [joinParts, String.append_assoc] using
        append_ne_empty_left p ("\n\n" ++ joinParts (q :: rest)) hp

/-- A truthy optional string carries a nonempty string. -/
theorem pyTruthy_strOf_ne_empty (o : Option String) (h : pyTruthy o = true) :
    strOf o ≠ "" := by
  cases o with
  | none => simp [pyTruthy] at h
  | some s => simpa [pyTruthy, strOf] using h

end Lanne

namespace Lanne

/-- C2: with agent output, retrieval text and web text all present
(nonempty), `build_context` is exactly the agent output, then the
retrieval text prefixed with the knowledge-base marker, then the web text
prefixed with the web-search marker, each pair of blocks separated by a
blank line — so the agent output comes before the retrieval text, which
comes before the web text. -/
theorem build_context_order_when_all_present (ctx : ExecutionContext)
    (A R W : String)
    (hA : ctx.agent_data = some A) (hA2 : A ≠ "")
    (hR : ctx.rag_data = some R) (hR2 : R ≠ "")
    (hW : ctx.web_data = some W) (hW2 : W ≠ "") :
    ctx.build_context =
      A ++ "\n\n" ++ ("[BASE DE CONHECIMENTO]\n" ++ R) ++ "\n\n" ++
        ("[PESQUISA WEB]\n" ++ W) := by
  simp [ExecutionContext.build_context, hA, hR, hW, pyTruthy, strOf,
    joinParts, hA2, hR2, hW2, String.append_assoc]

/-- Witness for `build_context_order_when_all_present` at a concrete
context. -/
theorem build_context_order_witness :
    (ExecutionContext.mk (some "uname: Linux") (some "docs nginx") 0
        (some "resultado web") []).build_context =
      "uname: Linux" ++ "\n\n" ++ ("[BASE DE CONHECIMENTO]\n" ++ "docs nginx")
        ++ "\n\n" ++ ("[PESQUISA WEB]\n" ++ "resultado web") :=
  build_context_order_when_all_present _ _ _ _ rfl (by decide) rfl (by decide)
    rfl (by decide)

/-- C3: `has_data` is true iff at least one of the three optional fields is
populated (present and nonempty, the Python truthiness used by the code),
and `build_context` returns the empty string iff `has_data` is false. -/
theorem has_data_iff_and_build_context_empty_iff (ctx : ExecutionContext) :
    (ctx.has_data = true ↔
      (pyTruthy ctx.agent_data = true ∨ pyTruthy ctx.rag_data = true ∨
        pyTruthy ctx.web_data = true)) ∧
    (ctx.build_context = "" ↔ ctx.has_data = false) := by
  constructor
  · simp [ExecutionContext.has_data, or_assoc]
  · constructor
    · intro hempty
      by_contra hne
      have hdata : ctx.has_data = true := by
        cases h : ctx.has_data with
        | false => exact absurd h hne
        | true => rfl
      -- at least one part is collected, and every collected part is
      -- nonempty, so the joined string cannot be empty
      have hparts :
          ((if pyTruthy ctx.agent_data then [strOf ctx.agent_data] else []) ++
           (if pyTruthy ctx.rag_data then
             ["[BASE DE CONHECIMENTO]\n" ++ strOf ctx.rag_data] else []) ++
           (if pyTruthy ctx.web_data then
             ["[PESQUISA WEB]\n" ++ strOf ctx.web_data] else [])) ≠ [] := by
        simp only [ExecutionContext.has_data, Bool.or_eq_true, or_assoc]
          at hdata
        rcases hdata with h1 | h1 | h1 <;> simp [h1]
      have hall : ∀ p ∈
          ((if pyTruthy ctx.agent_data then [strOf ctx.agent_data] else []) ++
           (if pyTruthy ctx.rag_data then
             ["[BASE DE CONHECIMENTO]\n" ++ strOf ctx.rag_data] else []) ++
           (if pyTruthy ctx.web_data then
             ["[PESQUISA WEB]\n" ++ strOf ctx.web_data] else [])), p ≠ "" := by
        intro p hp
        simp only [List.mem_append] at hp
        rcases hp with (hp | hp) | hp
        · cases h1 : pyTruthy ctx.agent_data with
          | false => simp [h1] at hp
          | true =>
            simp [h1] at hp
            subst hp
            exact pyTruthy_strOf_ne_empty _ h1
        · cases h1 : pyTruthy ctx.rag_data with
          | false => simp [h1] at hp
          | true =>
            simp [h1] at hp
            subst hp
            exact append_ne_empty_left _ _ (by decide)
        · cases h1 : pyTruthy ctx.web_data with
          | false => simp [h1] at hp
          | true =>
            simp [h1] at hp
            subst hp
            exact append_ne_empty_left _ _ (by decide)
      have : ctx.build_context ≠ "" := by
        simp only [ExecutionContext.build_context]
        simp only [if_neg hparts]
        exact joinParts_ne_empty _ hparts hall
      exact this hempty
    · intro hfalse
      have h1 : pyTruthy ctx.agent_data = false := by
        simp only [ExecutionContext.has_data, Bool.or_eq_false_iff] at hfalse
        exact hfalse.1.1
      have h2 : pyTruthy ctx.rag_data = false := by
        simp only [ExecutionContext.has_data, Bool.or_eq_false_iff] at hfalse
        exact hfalse.1.2
      have h3 : pyTruthy ctx.web_data = false := by
        simp only [ExecutionContext.has_data, Bool.or_eq_false_iff] at hfalse
        exact hfalse.2
      simp [ExecutionContext.build_context, h1, h2, h3]

end Lanne

namespace Lanne

/-- C1: refuted on the code.  `create_plan` has branches only for
GREETING and TECHNICAL; when the classified intent is CASUAL it falls
through both and produces no ExecutionPlan at all (Python implicitly
returns `None`), rather than the all-flags-false CHAT plan the claim
requires for CASUAL. -/
theorem create_plan_casual_returns_none
    (classify : String → Intent) (planner : Option PlannerReply)
    (query : String) (h : classify query = Intent.CASUAL) :
    create_plan classify planner query = none := by
  simp [create_plan, h]

/-- Witness for `create_plan_casual_returns_none` at a concrete CASUAL
query. -/
theorem create_plan_casual_witness :
    create_plan (fun _ => Intent.CASUAL) none "tudo bem?" = none :=
  create_plan_casual_returns_none (fun _ => Intent.CASUAL) none
    "tudo bem?" rfl

/-- The GREETING side of C1, which does hold: for a GREETING query the
returned plan has every use-flag false, empty agent commands, and CHAT
response style. -/
theorem create_plan_greeting_trivial
    (classify : String → Intent) (planner : Option PlannerReply)
    (query : String) (h : classify query = Intent.GREETING) :
    ∃ p, create_plan classify planner query = some p ∧
      p.use_agent = false ∧ p.use_rag = false ∧ p.use_web = false ∧
      p.agent_commands = [] ∧ p.response_style = "CHAT" := by
  refine ⟨{ intent := "GREETING", response_style := "CHAT" }, ?_, rfl, rfl,
    rfl, rfl, rfl⟩
  simp [create_plan, h]

/-- Witness for `create_plan_greeting_trivial` at the query "oi". -/
theorem create_plan_greeting_witness :
    ∃ p, create_plan (fun _ => Intent.GREETING) none "oi" = some p ∧
      p.use_agent = false ∧ p.use_rag = false ∧ p.use_web = false ∧
      p.agent_commands = [] ∧ p.response_style = "CHAT" :=
  create_plan_greeting_trivial (fun _ => Intent.GREETING) none "oi" rfl

/-- C5: for a TECHNICAL query with the planner collaborator unreachable
(`planner = none`), `create_plan` still returns a plan (does not fail)
and that plan is the conservative default: retrieval only, all other
use-flags false, CHAT response style. -/
theorem create_plan_technical_planner_down
    (classify : String → Intent) (query : String)
    (h : classify query = Intent.TECHNICAL) :
    create_plan classify none query = some default_technical_plan ∧
    default_technical_plan.use_rag = true ∧
    default_technical_plan.use_agent = false ∧
    default_technical_plan.use_web = false ∧
    default_technical_plan.response_style = "CHAT" :=
  ⟨by simp [create_plan, h], rfl, rfl, rfl, rfl⟩

/-- Witness for `create_plan_technical_planner_down` at a concrete
TECHNICAL query. -/
theorem create_plan_technical_planner_down_witness :
    create_plan (fun _ => Intent.TECHNICAL) none "como instalar nginx?" =
      some default_technical_plan ∧
    default_technical_plan.use_rag = true ∧
    default_technical_plan.use_agent = false ∧
    default_technical_plan.use_web = false ∧
    default_technical_plan.response_style = "CHAT" :=
  create_plan_technical_planner_down (fun _ => Intent.TECHNICAL)
    "como instalar nginx?" rfl

/-- C4: when retrieval is attempted (`use_rag`) and the top retrieval
result's score is below the threshold, the spec-modelled `search_rag`
yields nothing, so the context's retrieval field stays unset and the
assembled context is exactly what it would have been without attempting
retrieval at all — it contains no retrieval text. -/
theorem low_score_retrieval_treated_absent
    (results : List (String × ℚ)) (threshold : ℚ)
    (t : String) (s : ℚ) (rest : List (String × ℚ))
    (htop : results = (t, s) :: rest) (hlow : s < threshold)
    (agentFn : List String → Option String) (plan : ExecutionPlan)
    (query : String) :
    (execute_plan agentFn (fun _ => search_rag results threshold)
        plan query).1.rag_data = none ∧
    (execute_plan agentFn (fun _ => search_rag results threshold)
        plan query).1.build_context =
      (execute_plan agentFn (fun _ => search_rag results threshold)
        { plan with use_rag := false } query).1.build_context := by
  have hrag : search_rag results threshold = none := by
    simp [search_rag, htop, not_le.mpr hlow]
  cases ha : plan.use_agent <;> cases hr : plan.use_rag <;>
    simp [execute_plan, ha, hr, hrag]

/-- Witness for `low_score_retrieval_treated_absent`: a single retrieval
result scoring 3/10 against a threshold of 1/2. -/
theorem low_score_retrieval_witness :
    (execute_plan (fun _ => none)
        (fun _ => search_rag [("doc", (3 : ℚ)/10)] ((1 : ℚ)/2))
        { intent := "TECHNICAL", use_rag := true } "query").1.rag_data =
      none ∧
    (execute_plan (fun _ => none)
        (fun _ => search_rag [("doc", (3 : ℚ)/10)] ((1 : ℚ)/2))
        { intent := "TECHNICAL", use_rag := true } "query"
        ).1.build_context =
      (execute_plan (fun _ => none)
        (fun _ => search_rag [("doc", (3 : ℚ)/10)] ((1 : ℚ)/2))
        { intent := "TECHNICAL" } "query").1.build_context :=
  low_score_retrieval_treated_absent [("doc", (3 : ℚ)/10)] ((1 : ℚ)/2)
    "doc" ((3 : ℚ)/10) [] rfl (by norm_num) (fun _ => none)
    { intent := "TECHNICAL", use_rag := true } "query"

/-- C6: partially refuted on the code.  `execute_plan` issues exactly one
agent call when `use_agent` is set and none otherwise, exactly one
retrieval call when `use_rag` is set and none otherwise, but it never
issues a web-search call and never sets `web_data`, even when `use_web`
is true — the Python body has no `use_web` branch. -/
theorem execute_plan_calls_per_flag
    (agentFn : List String → Option String)
    (ragFn : String → Option String)
    (plan : ExecutionPlan) (query : String) :
    ((execute_plan agentFn ragFn plan query).2.countP
        (fun c => c.isAgent) = if plan.use_agent then 1 else 0) ∧
    ((execute_plan agentFn ragFn plan query).2.countP
        (fun c => c.isRag) = if plan.use_rag then 1 else 0) ∧
    ((execute_plan agentFn ragFn plan query).2.countP
        (fun c => c.isWeb) = 0) ∧
    (execute_plan agentFn ragFn plan query).1.web_data = none := by
  cases ha : plan.use_agent <;> cases hr : plan.use_rag <;>
    simp [execute_plan, ha, hr, SourceCall.isAgent, SourceCall.isRag,
      SourceCall.isWeb, List.countP_cons]

end Lanne

namespace Lanne

/-- A conversation turn (role is "user" or "assistant"). -/
structure Turn where
  role : String
  text : String
deriving DecidableEq, Repr

/-- Per-conversation memory state: the verbatim sliding window, the
turns folded into the running summary (in chronological order), and the
window size (6 in the repository, README: "Janela deslizante — últimas 6
mensagens + resumo"). -/
structure ConversationState where
  window : List Turn
  summary : List Turn
  windowSize : Nat
deriving DecidableEq, Repr

/-- Modelled from the spec: the ConversationMemory per-turn update — the
conversation-service implementation is not in the repository snapshot
(the README only names the sliding-window feature).  Per the spec:
append the new turn to the window; if the window length now exceeds
`windowSize`, evict the oldest turn(s) from the window and fold them into
the summary, in chronological order (concatenation policy). -/
def addTurn (st : ConversationState) (t : Turn) : ConversationState :=
  let w := st.window ++ [t]
  if st.windowSize < w.length then
    { st with
      window := w.drop (w.length - st.windowSize)
      summary := st.summary ++ w.take (w.length - st.windowSize) }
  else { st with window := w }

/-- The EMPTY memory state for a fresh conversation. -/
def initialState (windowSize : Nat) : ConversationState :=
  { window := [], summary := [], windowSize := windowSize }

/-- Feed a sequence of turns through the memory, starting empty. -/
def runTurns (windowSize : Nat) (ts : List Turn) : ConversationState :=
  ts.foldl addTurn (initialState windowSize)

/-- One `addTurn` step preserves the memory invariant: the summary and
the window partition the processed turns, and the window holds
`min windowSize N` of them. -/
theorem addTurn_invariant (w : Nat) (st : ConversationState) (t : Turn)
    (processed : List Turn)
    (h1 : st.windowSize = w)
    (h2 : st.summary ++ st.window = processed)
    (h3 : st.window.length = min w processed.length) :
    (addTurn st t).windowSize = w ∧
    (addTurn st t).summary ++ (addTurn st t).window = processed ++ [t] ∧
    (addTurn st t).window.length = min w (processed.length + 1) := by
  have hlen : st.window.length ≤ processed.length := by
    have := congrArg List.length h2
    simp [List.length_append] at this
    omega
  unfold addTurn
  by_cases hcond : st.windowSize < (st.window ++ [t]).length
  · simp only [if_pos hcond]
    refine ⟨h1, ?_, ?_⟩
    · rw [List.append_assoc, List.take_append_drop, ← List.append_assoc,
        h2]
    · simp only [List.length_drop, List.length_append,
        List.length_singleton]
      simp only [List.length_append, List.length_singleton] at hcond
      omega
  · simp only [if_neg hcond]
    refine ⟨h1, ?_, ?_⟩
    · rw [← List.append_assoc, h2]
    · simp only [List.length_append, List.length_singleton]
      simp only [List.length_append, List.length_singleton] at hcond
      omega

/-- The memory invariant holds after any number of turns. -/
theorem runTurns_invariant (w : Nat) (ts : List Turn) :
    (runTurns w ts).windowSize = w ∧
    (runTurns w ts).summary ++ (runTurns w ts).window = ts ∧
    (runTurns w ts).window.length = min w ts.length := by
  induction ts using List.reverseRecOn with
  | nil => simp [runTurns, initialState]
  | append_singleton l a ih =>
      have hfold : runTurns w (l ++ [a]) = addTurn (runTurns w l) a := by
        simp [runTurns, List.foldl_append]
      obtain ⟨i1, i2, i3⟩ := ih
      have h := addTurn_invariant w (runTurns w l) a l i1 i2 i3
      rw [hfold]
      simpa [List.length_append] using h

/-- C7: after more than 6 turns with window size 6, the verbatim window
holds exactly the 6 most recent turns, the summary covers exactly the
earlier turns 1..(N-6) in chronological order, and summary and window
partition the turn sequence (so they never overlap). -/
theorem conversation_memory_window_summary (ts : List Turn)
    (h : 6 < ts.length) :
    (runTurns 6 ts).window = ts.drop (ts.length - 6) ∧
    (runTurns 6 ts).summary = ts.take (ts.length - 6) ∧
    (runTurns 6 ts).summary ++ (runTurns 6 ts).window = ts := by
  obtain ⟨h1, h2, h3⟩ := runTurns_invariant 6 ts
  have hwlen : (runTurns 6 ts).window.length = 6 := by
    rw [h3]; omega
  have hslen : (runTurns 6 ts).summary.length = ts.length - 6 := by
    have hc := congrArg List.length h2
    simp only [List.length_append, hwlen] at hc
    omega
  refine ⟨?_, ?_, h2⟩
  · have hd := congrArg
      (List.drop ((runTurns 6 ts).summary.length)) h2
    rw [List.drop_left] at hd
    rw [hd, hslen]
  · have ht := congrArg
      (List.take ((runTurns 6 ts).summary.length)) h2
    rw [List.take_left] at ht
    rw [ht, hslen]

/-- Seven concrete turns used by the C7 witness. -/
def sevenTurns : List Turn :=
  [{ role := "user", text := "t1" }, { role := "assistant", text := "t2" },
   { role := "user", text := "t3" }, { role := "assistant", text := "t4" },
   { role := "user", text := "t5" }, { role := "assistant", text := "t6" },
   { role := "user", text := "t7" }]

/-- Witness for `conversation_memory_window_summary` at a concrete
7-turn conversation. -/
theorem conversation_memory_window_summary_witness :
    (runTurns 6 sevenTurns).window =
      sevenTurns.drop (sevenTurns.length - 6) ∧
    (runTurns 6 sevenTurns).summary =
      sevenTurns.take (sevenTurns.length - 6) ∧
    (runTurns 6 sevenTurns).summary ++ (runTurns 6 sevenTurns).window =
      sevenTurns :=
  conversation_memory_window_summary sevenTurns (by decide)

end Lanne

namespace Lanne

/-- The user-data JSON body returned by the auth endpoints
(`chatIntegration.js`: `userData.username / user_id / admin / token`). -/
structure UserData where
  username : String
  user_id : String
  admin : Bool
  token : String
deriving DecidableEq, Repr

/-- An HTTP response from an auth endpoint: status code plus parsed
body. -/
structure AuthResp where
  status : Nat
  body : UserData
deriving DecidableEq, Repr

/-- The auth backend as seen from the browser: the `/login` endpoint
(taking the username sent) and the `/register` endpoint (taking the
username and the admin flag sent). -/
structure AuthEnv where
  loginEp : String → AuthResp
  registerEp : String → Bool → AuthResp

/-- The requests `AuthService.login` can send, with their payloads. -/
inductive AuthCall
  | loginC (username : String)
  | registerC (username : String) (admin : Bool)
deriving DecidableEq, Repr

/-- The session stored by `saveSession` (chatIntegration.js lines
387-392): the user fields and the token. -/
structure Session where
  username : String
  user_id : String
  admin : Bool
  token : String
deriving DecidableEq, Repr

/-- JS `String.prototype.toLowerCase`, character-wise. -/
def jsToLower (s : String) : String := ⟨s.data.map Char.toLower⟩

/-- JS `String.prototype.trim`: strip whitespace from both ends. -/
def jsTrim (s : String) : String :=
  ⟨((s.data.dropWhile Char.isWhitespace).reverse.dropWhile
      Char.isWhitespace).reverse⟩

/-- `username.toLowerCase().trim()` as sent by `AuthService.login`. -/
def jsNormalize (s : String) : String := jsTrim (jsToLower s)

/-- `response.ok` of fetch: status in 200..299. -/
def respOk (status : Nat) : Bool := 200 ≤ status && status < 300

/-- `AuthService.login` (chatIntegration.js lines 409-457): POST the
normalized username to `/login`; if that answers 404, POST the same
normalized username with `admin: false` to `/register`; if the final
response is ok, save the session built from its body and return it,
otherwise throw (`none`).  The issued requests are returned as a
trace. -/
def AuthService.login (env : AuthEnv) (username : String) :
    List AuthCall × Option Session :=
  let n := jsNormalize username
  let r1 := env.loginEp n
  let calls :=
    if r1.status == 404 then
      [AuthCall.loginC n, AuthCall.registerC n false]
    else [AuthCall.loginC n]
  let r := if r1.status == 404 then env.registerEp n false else r1
  if respOk r.status then
    (calls, some { username := r.body.username, user_id := r.body.user_id,
                   admin := r.body.admin, token := r.body.token })
  else (calls, none)

/-- C9: `AuthService.login` always sends the lowercased,
whitespace-trimmed username to the login endpoint first; and when the
login endpoint answers 404 it calls the register endpoint with the same
normalized username and `admin = false`, so that (when registration
succeeds) the attempt ends with the account created and a session saved
from the register response, not with a failure. -/
theorem login_normalizes_and_autoregisters (env : AuthEnv)
    (username : String) :
    ((AuthService.login env username).1.head? =
      some (AuthCall.loginC (jsNormalize username))) ∧
    ((env.loginEp (jsNormalize username)).status = 404 →
      respOk (env.registerEp (jsNormalize username) false).status = true →
      (AuthService.login env username).1 =
        [AuthCall.loginC (jsNormalize username),
         AuthCall.registerC (jsNormalize username) false] ∧
      (AuthService.login env username).2 =
        some { username :=
                 (env.registerEp (jsNormalize username) false).body.username,
               user_id :=
                 (env.registerEp (jsNormalize username) false).body.user_id,
               admin :=
                 (env.registerEp (jsNormalize username) false).body.admin,
               token :=
                 (env.registerEp (jsNormalize username) false).body.token }) := by
  constructor
  · by_cases h404 : (env.loginEp (jsNormalize username)).status = 404 <;>
      simp [AuthService.login, h404] <;> split <;> simp
  · intro h404 hok
    simp [AuthService.login, h404, hok]

/-- A concrete auth backend for the C9 witness: the user does not exist
(login answers 404) and registration succeeds with status 201. -/
def authEnvEx : AuthEnv :=
  { loginEp := fun _ =>
      { status := 404,
        body := { username := "", user_id := "", admin := false,
                  token := "" } }
    registerEp := fun n a =>
      { status := 201,
        body := { username := n, user_id := "u42", admin := a,
                  token := "tok42" } } }

/-- Witness for `login_normalizes_and_autoregisters` on `authEnvEx` with
the raw username " Maria ". -/
theorem login_normalizes_and_autoregisters_witness :
    ((AuthService.login authEnvEx " Maria ").1.head? =
      some (AuthCall.loginC (jsNormalize " Maria "))) ∧
    ((AuthService.login authEnvEx " Maria ").1 =
      [AuthCall.loginC (jsNormalize " Maria "),
       AuthCall.registerC (jsNormalize " Maria ") false] ∧
     (AuthService.login authEnvEx " Maria ").2 =
      some { username :=
               (authEnvEx.registerEp (jsNormalize " Maria ") false
                 ).body.username,
             user_id :=
               (authEnvEx.registerEp (jsNormalize " Maria ") false
                 ).body.user_id,
             admin :=
               (authEnvEx.registerEp (jsNormalize " Maria ") false
                 ).body.admin,
             token :=
               (authEnvEx.registerEp (jsNormalize " Maria ") false
                 ).body.token }) :=
  ⟨(login_normalizes_and_autoregisters authEnvEx " Maria ").1,
   (login_normalizes_and_autoregisters authEnvEx " Maria ").2
     (by decide) (by decide)⟩

end Lanne

namespace Lanne

/-- A conversation record as returned by the conversation service
(part_002: `conversation.id`, plus creation title). -/
structure Conversation where
  id : String
  title : String
deriving DecidableEq, Repr

/-- The gateway chat reply (part_002 line 166: `botResponse.response`). -/
structure BotResponse where
  response : String
deriving DecidableEq, Repr

/-- The requests `ConversationService` can send, with their payloads. -/
inductive ConvCall
  | createC (userId title : String)
  | listC (userId : String)
  | addMsgC (conversationId role content : String)
  | chatC (text conversationId userId : String)
deriving DecidableEq, Repr

/-- The backend as seen from `ConversationService`: conversation
creation, conversation listing, message appending (true = success), and
the gateway chat endpoint. -/
structure ConvEnv where
  createConv : String → String → Option Conversation
  listConvs : String → Option (List Conversation)
  addMsg : String → String → String → Bool
  chat : String → String → String → Option BotResponse

/-- The mutable fields of the `ConversationService` instance
(part_002 lines 11-14). -/
structure ConvState where
  currentConversationId : Option String
  conversations : List Conversation
deriving DecidableEq, Repr

/-- `ConversationService.loadUserConversations` (part_002 lines 21-36):
fetch the user's conversations; on success store them, on error leave
state unchanged (the JS catch absorbs the error).  Returns the issued
requests and the updated state. -/
def loadUserConversations (env : ConvEnv) (st : ConvState)
    (userId : String) : List ConvCall × ConvState :=
  match env.listConvs userId with
  | some l => ([ConvCall.listC userId], { st with conversations := l })
  | none => ([ConvCall.listC userId], st)

/-- `ConversationService.createConversation` (part_002 lines 44-74):
POST the new conversation; on failure rethrow (`none`); on success make
it the current conversation, refresh the conversation list, and return
it. -/
def createConversation (env : ConvEnv) (st : ConvState)
    (userId title : String) :
    List ConvCall × Option (ConvState × Conversation) :=
  match env.createConv userId title with
  | none => ([ConvCall.createC userId title], none)
  | some conv =>
      let st1 := { st with currentConversationId := some conv.id }
      let load := loadUserConversations env st1 userId
      (ConvCall.createC userId title :: load.1, some (load.2, conv))

/-- `ConversationService.sendChatMessage` (part_002 lines 135-174): if
there is no current conversation, create one titled with the first 50
characters of the user message; append the user message; send the query
to the gateway; append the assistant reply; return it.  Any failing step
rethrows (`none` result), and the issued requests are returned as a
trace. -/
def sendChatMessage (env : ConvEnv) (st : ConvState)
    (userMessage userId : String) :
    List ConvCall × ConvState × Option BotResponse :=
  let step1 : List ConvCall × Option ConvState :=
    match st.currentConversationId with
    | some _ => ([], some st)
    | none =>
        let c := createConversation env st userId (userMessage.take 50)
        (c.1, c.2.map (fun p => p.1))
  match step1.2 with
  | none => (step1.1, st, none)
  | some st1 =>
      match st1.currentConversationId with
      | none => (step1.1, st1, none)
      | some cid =>
          let t1 := step1.1 ++ [ConvCall.addMsgC cid "user" userMessage]
          if env.addMsg cid "user" userMessage then
            let t2 := t1 ++ [ConvCall.chatC userMessage cid userId]
            match env.chat userMessage cid userId with
            | none => (t2, st1, none)
            | some bot =>
                let t3 :=
                  t2 ++ [ConvCall.addMsgC cid "assistant" bot.response]
                if env.addMsg cid "assistant" bot.response then
                  (t3, st1, some bot)
                else (t3, st1, none)
          else (t1, st1, none)

/-- C10: with no current conversation and every backend step succeeding,
`sendChatMessage` first creates a conversation titled with the first 50
characters of the user message and makes it current, then appends the
user message to it, then calls the gateway, then appends the assistant
response — in exactly that order — and returns the bot response. -/
theorem send_chat_message_flow (env : ConvEnv) (st : ConvState)
    (msg userId : String) (conv : Conversation) (bot : BotResponse)
    (hcur : st.currentConversationId = none)
    (hcreate : env.createConv userId (msg.take 50) = some conv)
    (hu : env.addMsg conv.id "user" msg = true)
    (hchat : env.chat msg conv.id userId = some bot)
    (ha : env.addMsg conv.id "assistant" bot.response = true) :
    (sendChatMessage env st msg userId).1 =
      [ConvCall.createC userId (msg.take 50), ConvCall.listC userId,
       ConvCall.addMsgC conv.id "user" msg,
       ConvCall.chatC msg conv.id userId,
       ConvCall.addMsgC conv.id "assistant" bot.response] ∧
    (sendChatMessage env st msg userId).2.1.currentConversationId =
      some conv.id ∧
    (sendChatMessage env st msg userId).2.2 = some bot := by
  cases hl : env.listConvs userId <;>
    simp [sendChatMessage, createConversation, loadUserConversations,
      hcur, hcreate, hu, hchat, ha, hl]

/-- A concrete backend for the C10 witness: every step succeeds. -/
def convEnvEx : ConvEnv :=
  { createConv := fun _ t => some { id := "c1", title := t }
    listConvs := fun _ => some [{ id := "c1", title := "ola" }]
    addMsg := fun _ _ _ => true
    chat := fun _ _ _ => some { response := "resposta" } }

/-- Witness for `send_chat_message_flow` on `convEnvEx`, starting with no
current conversation. -/
theorem send_chat_message_flow_witness :
    (sendChatMessage convEnvEx
        { currentConversationId := none, conversations := [] }
        "ola" "u7").1 =
      [ConvCall.createC "u7" ("ola".take 50), ConvCall.listC "u7",
       ConvCall.addMsgC "c1" "user" "ola",
       ConvCall.chatC "ola" "c1" "u7",
       ConvCall.addMsgC "c1" "assistant" "resposta"] ∧
    (sendChatMessage convEnvEx
        { currentConversationId := none, conversations := [] }
        "ola" "u7").2.1.currentConversationId = some "c1" ∧
    (sendChatMessage convEnvEx
        { currentConversationId := none, conversations := [] }
        "ola" "u7").2.2 = some { response := "resposta" } :=
  send_chat_message_flow convEnvEx
    { currentConversationId := none, conversations := [] } "ola" "u7"
    { id := "c1", title := "ola".take 50 } { response := "resposta" }
    rfl rfl rfl rfl rfl

end Lanne
